import Mathlib

/-!
Verification of the k6-mcp documentation-ingestion pipeline.

This file gives a shallow embedding in Lean of the pure logic of the
repository: the path-metadata extractor and directory-inclusion predicate
of ingest.py, the front-matter parser fallback structure of ingest.py, and
the request handler of embed_api.py.  Paths are modelled as their ordered
segment lists relative to the documentation root (the state after the
relpath computation at the top of each Python function); the filesystem is
modelled as an explicit finite snapshot; the embedding model, file reads
and front-matter parsing are external collaborators passed in as
parameters.
-/

namespace K6

/-- Splits a character list on the slash character, keeping empty runs;
helper for pathParts. -/
def splitSegs : List Char → List Char → List (List Char)
  | [], cur => [cur.reverse]
  | c :: rest, cur =>
    if c = '/' then cur.reverse :: splitSegs rest [] else splitSegs rest (c :: cur)

/-- Model of splitting a relative POSIX path into its ordered segments as
Python pathlib does on the result of os.path.relpath: split on slashes,
dropping empty segments and single-dot segments (pathlib normalises both
away; os.path.relpath of a path against itself is the single-dot path,
whose segment list is empty). -/
def pathParts (rel_path : String) : List String :=
  ((splitSegs rel_path.data []).map String.mk).filter
    (fun s => (s != "") && (s != "."))

/-- Model of the Python test re.match of the raw pattern v, one or more
digits, a literal dot, one or more digits, a literal dot, a literal x.
re.match anchors at the start of the string only, so this is a prefix
match, not a whole-string match: trailing characters after the final x are
accepted.  Maximal-munch on the digit runs is equivalent to the regex
engine with backtracking because a dot is not a digit. -/
def vPatMatch (s : String) : Bool :=
  match s.data with
  | 'v' :: r0 =>
    match r0.span Char.isDigit with
    | (d1, '.' :: r1) =>
      if d1 = [] then false
      else
        match r1.span Char.isDigit with
        | (d2, '.' :: 'x' :: _) => d2 != []
        | _ => false
    | _ => false
  | _ => false

/-- Whole-string version pattern, written from the words of the spec
(strict match of v digits dot digits dot x with nothing after the x), for
comparison with the re.match prefix semantics of vPatMatch. -/
def strictVersionPat (s : String) : Bool :=
  match s.data with
  | 'v' :: r0 =>
    match r0.span Char.isDigit with
    | (d1, '.' :: r1) =>
      if d1 = [] then false
      else
        match r1.span Char.isDigit with
        | (d2, '.' :: 'x' :: rest) => d2 != [] && rest = []
        | _ => false
    | _ => false
  | _ => false

/-- The path-derived metadata record built by extract_metadata_from_path:
the relative path (kept as its segment list), the tool, the version and
the category. -/
structure Metadata where
  file_path : List String
  tool : String
  version : String
  category : String
deriving Repr, DecidableEq

/-- Body of extract_metadata_from_path after the relative-path split: a
direct translation of the branch structure of ingest.py lines 49-97,
acting on the ordered segment list. -/
def extractFromParts (path_parts : List String) : Metadata :=
  let metadata : Metadata :=
    { file_path := path_parts, tool := "unknown", version := "unknown",
      category := "unknown" }
  match path_parts with
  | [] => metadata
  | p0 :: rest =>
    if p0 = "k6" then
      let m1 := { metadata with tool := "k6" }
      match rest with
      | [] => m1
      | p1 :: rest2 =>
        let m2 :=
          if p1 = "next" then { m1 with version := "next" }
          else if vPatMatch p1 then { m1 with version := p1 }
          else { m1 with category := p1 }
        match rest2 with
        | p2 :: _ =>
          if m2.version ≠ "unknown" then { m2 with category := p2 }
          else { m2 with category := p1 }
        | [] =>
          if m2.version = "unknown" then { m2 with category := p1 } else m2
    else if p0 = "k6-studio" then
      let m1 := { metadata with tool := "k6-studio", version := "current" }
      match rest with
      | p1 :: _ => { m1 with category := p1 }
      | [] => m1
    else if p0 = "next" then
      let m1 := { metadata with tool := "k6", version := "next" }
      match rest with
      | p1 :: _ => { m1 with category := p1 }
      | [] => m1
    else if vPatMatch p0 then
      let m1 := { metadata with tool := "k6", version := p0 }
      match rest with
      | p1 :: _ => { m1 with category := p1 }
      | [] => m1
    else metadata

/-- extract_metadata_from_path of ingest.py, taking the path already made
relative to the documentation root (the function first computes exactly
that relative path and then only looks at its segments). -/
def extract_metadata_from_path (rel_path : String) : Metadata :=
  extractFromParts (pathParts rel_path)

/-- Substring containment on character lists, the model of the Python
membership test of one string in another. -/
def inStr : List Char → List Char → Bool
  | needle, [] => needle.isEmpty
  | needle, c :: t => needle.isPrefixOf (c :: t) || inStr needle t

/-- Substring containment on strings. -/
def containsSub (needle hay : String) : Bool := inStr needle.data hay.data

/-- A finite filesystem snapshot relative to the documentation root:
the set of existing directories and the set of existing regular files,
each as its ordered segment list. -/
structure FS where
  dirs : List (List String)
  files : List (List String)
deriving Repr, DecidableEq

/-- Model of os.path.exists on a directory path. -/
def FS.dirExists (fs : FS) (d : List String) : Bool := fs.dirs.contains d

/-- The basenames of the Markdown files strictly below directory d, as
collected by the os.walk loop of should_include_directory: every file
whose path extends d contributes its final segment, kept when it ends in
the .md extension. -/
def FS.mdFilesUnder (fs : FS) (d : List String) : List String :=
  ((fs.files.filter (fun f => d.isPrefixOf f && decide (d.length < f.length))).filterMap
    (fun f => f.getLast?)).filter (fun nm => List.isSuffixOf ".md".data nm.data)

/-- should_include_directory of ingest.py, taking the directory path
already made relative to the base (the function first computes exactly
that relative path) together with the filesystem snapshot consulted by
its os.path.exists and os.walk calls. -/
def should_include_directory (fs : FS) (path_parts : List String) : Bool :=
  match path_parts with
  | [] => true
  | p0 :: rest =>
    if p0 = "k6-studio" then true
    else
      match rest with
      | [] => true
      | p1 :: _ =>
        if p0 = "k6" then
          if vPatMatch p1 then
            let version_dir := [p0, p1]
            if fs.dirExists version_dir then
              let md_files := fs.mdFilesUnder version_dir
              let has_content :=
                decide (md_files.length > 1) || md_files.any (fun f => f != "_index.md")
              let is_recent := containsSub "v0.5" p1 || containsSub "v1." p1
              has_content || is_recent
            else false
          else true
        else true

/-- The single-quote character, U+0027. -/
def quoteChar : Char := Char.ofNat 39

/-- The client-error message of the embed endpoint: the word Missing, a
space, the word text wrapped in single quotes, then: in request body. -/
def errorMessage : String :=
  "Missing " ++ String.mk [quoteChar, 't', 'e', 'x', 't', quoteChar] ++ " in request body"

/-- A JSON value, the possible results of parsing the request body. -/
inductive JVal where
  | jnull
  | jbool (b : Bool)
  | jnum (n : Int)
  | jstr (s : String)
  | jarr (xs : List JVal)
  | jobj (fields : List (String × JVal))

/-- Python truthiness of a JSON value: null, false, zero, the empty
string, the empty list and the empty object are falsy. -/
def truthy : JVal → Bool
  | .jnull => false
  | .jbool b => b
  | .jnum n => n != 0
  | .jstr s => s != ""
  | .jarr xs => !xs.isEmpty
  | .jobj fs => !fs.isEmpty

/-- Python membership of a string key in a JSON value: key lookup for an
object, substring containment for a string, element equality for a list,
and a TypeError (modelled as the error case) for null, booleans and
numbers, which are not containers. -/
def pyContains (d : JVal) (k : String) : Except Unit Bool :=
  match d with
  | .jobj fs => Except.ok (fs.any (fun p => k == p.1))
  | .jstr s => Except.ok (inStr k.data s.data)
  | .jarr xs =>
    Except.ok (xs.any (fun v => match v with | JVal.jstr s => s == k | _ => false))
  | _ => Except.error ()

/-- Python indexing of a JSON value with a string key: object lookup
(KeyError when absent, modelled as the error case); strings and lists
reject string indices with a TypeError, as do the remaining shapes. -/
def pyIndex (d : JVal) (k : String) : Except Unit JVal :=
  match d with
  | .jobj fs =>
    match fs.lookup k with
    | some v => Except.ok v
    | none => Except.error ()
  | _ => Except.error ()

/-- One response of the embed endpoint: either the error body carrying a
message, or the embedding body carrying the encoded value. -/
inductive Resp (α : Type) where
  | errMsg (msg : String)
  | embList (e : α)
deriving Repr, DecidableEq

/-- The embed handler of embed_api.py: data is the parsed JSON body (none
when the body parsed to null), encode is the external embedding model
applied to the extracted text value.  The result pairs an HTTP status
with a body; an uncaught Python exception (TypeError on the membership
test or indexing, KeyError on lookup) is the error case of the Except. -/
def embedHandler {α : Type} (encode : JVal → α) (data : Option JVal) :
    Except Unit (Nat × Resp α) :=
  match data with
  | none => Except.ok (400, Resp.errMsg errorMessage)
  | some d =>
    if !truthy d then Except.ok (400, Resp.errMsg errorMessage)
    else
      match pyContains d "text" with
      | Except.error e => Except.error e
      | Except.ok c =>
        if !c then Except.ok (400, Resp.errMsg errorMessage)
        else
          match pyIndex d "text" with
          | Except.error e => Except.error e
          | Except.ok t => Except.ok (200, Resp.embList (encode t))

/-- The front-matter document returned by the external frontmatter.load:
its metadata mapping (values taken after string conversion) and the body
content with the front-matter block stripped. -/
structure FMPost where
  metadata : List (String × String)
  content : String

/-- The record parse_frontmatter returns: exactly the four keys title,
description, weight and content. -/
structure ParsedDoc where
  title : String
  description : String
  weight : String
  content : String
deriving Repr, DecidableEq

/-- Dictionary get with the empty-string default, as used on the
front-matter metadata. -/
def metaGetD (m : List (String × String)) (k : String) : String :=
  match m.lookup k with
  | some v => v
  | none => ""

/-- parse_frontmatter of ingest.py, with its two external effects passed
in: readFile is the outcome of opening and reading the file (the same
snapshot for the first attempt and the fallback re-read) and loadFM is
the front-matter parse of the raw text.  The first try block reads and
parses; on any failure there, the fallback try re-reads and returns the
raw text as content with the other fields empty; if reading itself
fails, every field comes back empty.  No failure escapes to the caller. -/
def parse_frontmatter (readFile : Except Unit String)
    (loadFM : String → Except Unit FMPost) : ParsedDoc :=
  match readFile with
  | Except.ok raw =>
    match loadFM raw with
    | Except.ok post =>
      { title := metaGetD post.metadata "title"
        description := metaGetD post.metadata "description"
        weight := metaGetD post.metadata "weight"
        content := post.content }
    | Except.error _ =>
      { title := "", description := "", weight := "", content := raw }
  | Except.error _ => { title := "", description := "", weight := "", content := "" }

/-- A version token of the k6 branch: the literal next, or a segment
accepted by the version-pattern test. -/
def isVersionToken (s : String) : Bool := s == "next" || vPatMatch s

/-- Snapshot with a k6 version directory v0.4.x holding only the index
page, its version containing neither allow-listed substring. -/
def fsOnlyIndexOld : FS :=
  { dirs := [["k6"], ["k6", "v0.4.x"]], files := [["k6", "v0.4.x", "_index.md"]] }

/-- Snapshot with a k6 version directory v1.2.x holding only the index
page, allow-listed through the v1. substring. -/
def fsOnlyIndexV12 : FS :=
  { dirs := [["k6"], ["k6", "v1.2.x"]], files := [["k6", "v1.2.x", "_index.md"]] }

/-!
Theorems.
-/

/-- Helper: a segment accepted by the version-pattern test is not the
literal unknown, since it starts with the letter v. -/
theorem vPat_ne_unknown {s : String} (h : vPatMatch s = true) : s ≠ "unknown" := by
  intro he; subst he; exact absurd h (by decide)

/-- Helper: a segment accepted by the version-pattern test is not empty. -/
theorem vPat_ne_empty {s : String} (h : vPatMatch s = true) : s ≠ "" := by
  intro he; subst he; exact absurd h (by decide)

/-- Claim C1: on a path whose segments are k6, a version token V and a
category segment C (followed by anything), extraction returns tool k6,
version V and category C; in particular the two concrete paths of the
spec give version v1.0.x with category javascript-api, and version next
with category examples. -/
theorem C1_k6_version_category :
    (∀ V C rest, isVersionToken V = true →
      ((extractFromParts ("k6" :: V :: C :: rest)).tool = "k6" ∧
       (extractFromParts ("k6" :: V :: C :: rest)).version = V ∧
       (extractFromParts ("k6" :: V :: C :: rest)).category = C)) ∧
    extract_metadata_from_path "k6/v1.0.x/javascript-api/k6.md" =
      { file_path := ["k6", "v1.0.x", "javascript-api", "k6.md"], tool := "k6",
        version := "v1.0.x", category := "javascript-api" } ∧
    extract_metadata_from_path "k6/next/examples/basic.md" =
      { file_path := ["k6", "next", "examples", "basic.md"], tool := "k6",
        version := "next", category := "examples" } := by
  refine ⟨?_, by decide, by decide⟩
  intro V C rest h
  by_cases hn : V = "next"
  · subst hn; exact ⟨rfl, rfl, rfl⟩
  · have hv : vPatMatch V = true := by
      simpa [isVersionToken, hn] using h
    have hne : V ≠ "unknown" := vPat_ne_unknown hv
    simp [extractFromParts, hn, hv, hne]

/-- Witness for C1 at the concrete version token v1.0.x. -/
theorem C1_witness :
    isVersionToken "v1.0.x" = true ∧
    (extractFromParts ["k6", "v1.0.x", "javascript-api", "k6.md"]).version = "v1.0.x" :=
  ⟨by decide, (C1_k6_version_category.1 "v1.0.x" "javascript-api" ["k6.md"] (by decide)).2.1⟩

/-- Claim C2: evaluation of the extractor at the failing input.  On the
path k6-studio/introduction.md the code returns the raw second segment
introduction.md as the category, not the value introduction that the
claim, the spec and the expectation table of test_metadata.py record. -/
theorem C2_studio_intro :
    (extract_metadata_from_path "k6-studio/introduction.md").tool = "k6-studio" ∧
    (extract_metadata_from_path "k6-studio/introduction.md").version = "current" ∧
    (extract_metadata_from_path "k6-studio/introduction.md").category = "introduction.md" ∧
    (extract_metadata_from_path "k6-studio/introduction.md").category ≠ "introduction" := by
  decide

/-- Claim C3: on any path whose first segment is k6-studio, extraction
returns tool k6-studio and version current, with the category equal to
the second segment verbatim when one exists and unknown otherwise. -/
theorem C3_studio_rule (rest : List String) :
    (extractFromParts ("k6-studio" :: rest)).tool = "k6-studio" ∧
    (extractFromParts ("k6-studio" :: rest)).version = "current" ∧
    (extractFromParts ("k6-studio" :: rest)).category =
      (match rest with | [] => "unknown" | c :: _ => c) := by
  cases rest <;> exact ⟨rfl, rfl, rfl⟩

/-- Counterexample to claim C4: the segment v1.0.xyz does not match the
whole-string pattern and is not the literal next, yet the code accepts it
as the version (the Python test anchors only at the start of the string),
so the version does not stay unknown and the category is not set to the
segment. -/
theorem C4_counterexample :
    strictVersionPat "v1.0.xyz" = false ∧ "v1.0.xyz" ≠ "next" ∧
    (extractFromParts ["k6", "v1.0.xyz"]).version = "v1.0.xyz" ∧
    (extractFromParts ["k6", "v1.0.xyz"]).version ≠ "unknown" ∧
    (extractFromParts ["k6", "v1.0.xyz"]).category = "unknown" := by
  decide

/-- Helper: every whole-string match of the version pattern is also
accepted by the start-anchored test of the code. -/
theorem strict_implies_vPat (s : String) (h : strictVersionPat s = true) :
    vPatMatch s = true := by
  unfold strictVersionPat at h
  unfold vPatMatch
  split at h
  · split at h
    · split at h
      · simp at h
      · split at h
        · simp_all
        · simp at h
    · simp at h
  · simp at h

/-- Claim C4 as amended: segment 1 of a k6 path is treated as a version
exactly when the start-anchored pattern test accepts it: a prefix of the
form v digits dot digits dot x suffices, so v1.0.x and also v1.0.xyz are
accepted while v1.0 and 1.0.x are not; whenever the test rejects segment 1
(and it is not the literal next) the version stays unknown and the
category becomes segment 1; every whole-string match is still accepted. -/
theorem C4_version_prefix_semantics :
    (∀ s1 rest, s1 ≠ "next" → vPatMatch s1 = true →
      (extractFromParts ("k6" :: s1 :: rest)).version = s1) ∧
    (∀ s1 rest, s1 ≠ "next" → vPatMatch s1 = false →
      (extractFromParts ("k6" :: s1 :: rest)).version = "unknown" ∧
      (extractFromParts ("k6" :: s1 :: rest)).category = s1) ∧
    (∀ s, strictVersionPat s = true → vPatMatch s = true) ∧
    vPatMatch "v1.0.x" = true ∧ vPatMatch "v1.0" = false ∧
    vPatMatch "1.0.x" = false ∧ vPatMatch "v1.0.xyz" = true := by
  refine ⟨?_, ?_, strict_implies_vPat, by decide, by decide, by decide, by decide⟩
  · intro s1 rest hn hv
    cases rest <;> simp [extractFromParts, hn, hv, vPat_ne_unknown hv]
  · intro s1 rest hn hv
    cases rest <;> simp [extractFromParts, hn, hv]

/-- Witness for C4 at the accepted segment v1.0.x and the rejected
segment notaversion. -/
theorem C4_witness :
    strictVersionPat "v1.0.x" = true ∧
    (extractFromParts ["k6", "v1.0.x"]).version = "v1.0.x" ∧
    (extractFromParts ["k6", "notaversion"]).version = "unknown" ∧
    (extractFromParts ["k6", "notaversion"]).category = "notaversion" ∧
    vPatMatch "v1.0.x" = true :=
  ⟨by decide,
   C4_version_prefix_semantics.1 "v1.0.x" [] (by decide) (by decide),
   (C4_version_prefix_semantics.2.1 "notaversion" [] (by decide) (by decide)).1,
   (C4_version_prefix_semantics.2.1 "notaversion" [] (by decide) (by decide)).2,
   C4_version_prefix_semantics.2.2.1 "v1.0.x" (by decide)⟩

/-- Claim C5: the inclusion predicate is true on every directory whose
first segment is k6-studio, whatever the filesystem snapshot holds, and
on every directory that does not have the shape of a k6 version
directory (first segment k6, second segment accepted by the version
test). -/
theorem C5_include_studio_and_default (fs : FS) (parts : List String)
    (h : (∃ t, parts = "k6-studio" :: t) ∨
      ¬(∃ p1 t, parts = "k6" :: p1 :: t ∧ vPatMatch p1 = true)) :
    should_include_directory fs parts = true := by
  match parts with
  | [] => rfl
  | p0 :: rest =>
    by_cases h0 : p0 = "k6-studio"
    · subst h0; simp [should_include_directory]
    · match rest with
      | [] => simp [should_include_directory, h0]
      | p1 :: t =>
        by_cases hk : p0 = "k6"
        · subst hk
          by_cases hv : vPatMatch p1 = true
          · exfalso
            rcases h with ⟨t2, ht⟩ | hno
            · simp at ht
            · exact hno ⟨p1, t, rfl, hv⟩
          · have hv2 : vPatMatch p1 = false := by
              simpa using hv
            simp [should_include_directory, hv2]
        · simp [should_include_directory, h0, hk]

/-- Witness for C5 on the k6-studio directory over the empty snapshot. -/
theorem C5_witness :
    should_include_directory { dirs := [], files := [] } ["k6-studio"] = true :=
  C5_include_studio_and_default { dirs := [], files := [] } ["k6-studio"] (Or.inl ⟨[], rfl⟩)

/-- Claim C6: for a directory whose first two segments are k6 and a
version-pattern segment, inclusion holds exactly when the version
directory exists in the snapshot and either its subtree has more than one
Markdown file or some Markdown file other than the index page, or the
version contains one of the allow-listed substrings; in particular the
sparse v0.4.x tree is excluded and the sparse v1.2.x tree is included. -/
theorem C6_version_dir_inclusion :
    (∀ (fs : FS) (v : String) (rest : List String), vPatMatch v = true →
      (should_include_directory fs ("k6" :: v :: rest) = true ↔
        (fs.dirExists ["k6", v] = true ∧
          ((fs.mdFilesUnder ["k6", v]).length > 1 ∨
            (∃ f ∈ fs.mdFilesUnder ["k6", v], f ≠ "_index.md") ∨
            containsSub "v0.5" v = true ∨ containsSub "v1." v = true)))) ∧
    should_include_directory fsOnlyIndexOld ["k6", "v0.4.x"] = false ∧
    should_include_directory fsOnlyIndexV12 ["k6", "v1.2.x"] = true := by
  refine ⟨?_, by decide, by decide⟩
  intro fs v rest hv
  by_cases he : fs.dirExists ["k6", v] = true
  · simp [should_include_directory, hv, he, List.any_eq_true, Bool.or_eq_true,
      or_assoc, and_assoc]
  · have he2 : fs.dirExists ["k6", v] = false := by simpa using he
    simp [should_include_directory, hv, he2]

/-- Witness for C6 on the sparse v1.2.x snapshot. -/
theorem C6_witness :
    should_include_directory fsOnlyIndexV12 ["k6", "v1.2.x"] = true :=
  (C6_version_dir_inclusion.1 fsOnlyIndexV12 "v1.2.x" [] (by decide)).mpr
    ⟨by decide, Or.inr (Or.inr (Or.inr (by decide)))⟩

/-- Helper: the membership test on the keys of an object agrees with
lookup being successful. -/
theorem any_key_eq_lookup_isSome (k : String) (fs : List (String × JVal)) :
    fs.any (fun p => k == p.1) = (fs.lookup k).isSome := by
  induction fs with
  | nil => rfl
  | cons hd tl ih =>
    cases hd with
    | mk a b =>
      cases hh : (k == a) <;> simp only [List.lookup, List.any_cons, hh,
        Bool.false_or, Bool.true_or, ih, Option.isSome_some]

/-- Claim C7 as amended: when the parsed body is absent or is a JSON
object, the handler returns 400 with the missing-text error exactly when
there is no text key, and otherwise 200 with the encoding of the text
value; for a truthy body that is not a container the membership test
raises instead of producing the 400 response. -/
theorem C7_embed_handler (α : Type) (encode : JVal → α)
    (fields : List (String × JVal)) :
    (embedHandler encode none = Except.ok (400, Resp.errMsg errorMessage)) ∧
    (fields.lookup "text" = none →
      embedHandler encode (some (JVal.jobj fields)) =
        Except.ok (400, Resp.errMsg errorMessage)) ∧
    (∀ v, fields.lookup "text" = some v →
      embedHandler encode (some (JVal.jobj fields)) =
        Except.ok (200, Resp.embList (encode v))) := by
  refine ⟨rfl, ?_, ?_⟩
  · intro h
    have hc : fields.any (fun p => "text" == p.1) = false := by
      rw [any_key_eq_lookup_isSome, h]
      rfl
    match fields with
    | [] => rfl
    | f :: tl =>
      simp only [embedHandler, truthy, pyContains, hc, List.isEmpty_cons,
        Bool.not_false, Bool.not_true, if_true, if_false, ite_true, ite_false,
        Bool.false_eq_true, reduceIte]
  · intro v h
    have hc : fields.any (fun p => "text" == p.1) = true := by
      rw [any_key_eq_lookup_isSome, h]
      rfl
    match fields with
    | [] => simp [List.lookup] at h
    | f :: tl =>
      simp only [embedHandler, truthy, pyContains, pyIndex, hc, h,
        List.isEmpty_cons, Bool.not_false, Bool.not_true, if_true, if_false,
        ite_true, ite_false, reduceIte]
      rfl

/-- Counterexample to claim C7: a parsed body that is the JSON number 5
is present and has no text key, yet the handler does not produce the 400
response: the membership test on a number raises an uncaught TypeError. -/
theorem C7_counterexample :
    embedHandler (fun _ => ()) (some (JVal.jnum 5)) = Except.error () ∧
    embedHandler (fun _ => ()) (some (JVal.jnum 5)) ≠
      Except.ok (400, Resp.errMsg errorMessage) := by
  refine ⟨rfl, ?_⟩
  intro h
  have h2 : (Except.error () : Except Unit (Nat × Resp Unit)) =
      Except.ok (400, Resp.errMsg errorMessage) :=
    (rfl : embedHandler (fun _ => ()) (some (JVal.jnum 5)) =
      Except.error ()).symm.trans h
  simp at h2

/-- Witness for C7 at a one-field object body. -/
theorem C7_witness :
    embedHandler (fun v => v) (some (JVal.jobj [("text", JVal.jstr "hello")])) =
      Except.ok (200, Resp.embList (JVal.jstr "hello")) :=
  (C7_embed_handler JVal (fun v => v) [("text", JVal.jstr "hello")]).2.2
    (JVal.jstr "hello") rfl

/-- Claim C8: parse_frontmatter is total over its effect outcomes; on a
front-matter parse failure it returns the whole raw text as content with
the other three fields empty, on a read failure it returns every field
empty, and the result always consists of exactly the four fields of
ParsedDoc. -/
theorem C8_parse_frontmatter_fallbacks (readFile : Except Unit String)
    (loadFM : String → Except Unit FMPost) :
    (∀ raw, readFile = Except.ok raw → loadFM raw = Except.error () →
      parse_frontmatter readFile loadFM =
        { title := "", description := "", weight := "", content := raw }) ∧
    (readFile = Except.error () →
      parse_frontmatter readFile loadFM =
        { title := "", description := "", weight := "", content := "" }) ∧
    (∃ t d w c, parse_frontmatter readFile loadFM =
      { title := t, description := d, weight := w, content := c }) := by
  refine ⟨?_, ?_,
    ⟨(parse_frontmatter readFile loadFM).title,
     (parse_frontmatter readFile loadFM).description,
     (parse_frontmatter readFile loadFM).weight,
     (parse_frontmatter readFile loadFM).content, rfl⟩⟩
  · intro raw h1 h2
    subst h1
    simp [parse_frontmatter, h2]
  · intro h1
    subst h1
    rfl

/-- Witness for C8 at a failing read. -/
theorem C8_witness :
    parse_frontmatter (Except.error ()) (fun _ => Except.error ()) =
      { title := "", description := "", weight := "", content := "" } :=
  (C8_parse_frontmatter_fallbacks (Except.error ())
    (fun _ => Except.error ())).2.1 rfl

/-- Helper: on segment lists without empty segments, every field of the
extracted metadata is a non-empty string -- each is a fixed non-empty
literal or one of the segments. -/
theorem extractFromParts_fields_ne_empty (parts : List String)
    (h : ∀ p ∈ parts, p ≠ "") :
    (extractFromParts parts).tool ≠ "" ∧
    (extractFromParts parts).version ≠ "" ∧
    (extractFromParts parts).category ≠ "" := by
  simp only [extractFromParts]
  repeat' split
  all_goals simp_all [List.forall_mem_cons]

/-- Claim C9: for every input path the extracted metadata carries the
tool, version and category fields (the Metadata structure always has
them) with non-empty values, defaulting to the literal unknown. -/
theorem C9_metadata_always_populated (rel_path : String) :
    (extract_metadata_from_path rel_path).tool ≠ "" ∧
    (extract_metadata_from_path rel_path).version ≠ "" ∧
    (extract_metadata_from_path rel_path).category ≠ "" := by
  apply extractFromParts_fields_ne_empty
  intro p hp
  simp only [pathParts, List.mem_filter, Bool.and_eq_true, bne_iff_ne, ne_eq,
    decide_eq_true_eq] at hp
  exact hp.2.1

/-- Claim C10: for a fixed snapshot, the inclusion predicate depends only
on the first two segments of the directory path -- on any two paths
agreeing there it returns the same value, definitionally. -/
theorem C10_only_first_two_segments_matter (fs : FS) (p0 p1 : String)
    (rest rest2 : List String) :
    should_include_directory fs (p0 :: p1 :: rest) =
      should_include_directory fs (p0 :: p1 :: rest2) := rfl

end K6
